import Mathlib

/-
Shallow embedding of the data-join-and-ranking logic of
`sleeper_league_analyzer.py` (SleeperChoppedList repository).

Point values are modelled as rationals (`Rat`); JSON values that the code
reads with `.get(key, default)` are modelled as `Option` fields with `getD`.
Python truthiness of numbers (`x or y`) and of strings/lists (`if x:`) is
modelled explicitly.
-/

namespace SleeperChopped

/-- A league user record: `user_id` key and optional `display_name`
(read with `user.get('display_name', ...)`). -/
structure User where
  user_id : String
  display_name : Option String
  deriving Repr, DecidableEq

/-- A roster record: `roster_id`, optional `owner_id`
(`roster.get('owner_id')`), and the starters list
(`roster.get('starters', [])`), whose slots may be null or empty. -/
structure Roster where
  roster_id : Nat
  owner_id : Option String
  starters : List (Option String)
  deriving Repr, DecidableEq

/-- A matchup record: `roster_id`, optional `points` field
(`matchup_data.get('points', 0)`), optional `starters_points` list
(`matchup_data.get('starters_points', [])`), and the `players_points`
mapping (`matchup_data.get('players_points', {})`). -/
structure Matchup where
  roster_id : Nat
  points : Option Rat
  starters_points : Option (List Rat)
  players_points : List (String × Rat)
  deriving Repr, DecidableEq

/-- The four projection stat fields the code reads from a projection
record's `stats` map; `none` models an absent key. -/
structure Stats where
  pts_ppr : Option Rat
  fantasy_points_ppr : Option Rat
  projected_points : Option Rat
  pts_std : Option Rat
  deriving Repr, DecidableEq

/-- The empty `stats` dict, the default of `proj_data.get('stats', {})`. -/
def Stats.empty : Stats := ⟨none, none, none, none⟩

/-- One element of the provider's projections list: optional `player_id`
(`player_data.get('player_id')`) and optional `stats` map. -/
structure ProjectionEntry where
  player_id : Option String
  stats : Option Stats
  deriving Repr, DecidableEq

/-- The derived per-team summary appended to `teams_data`. -/
structure Team where
  team_name : String
  roster_id : Nat
  current_points : Rat
  projected_points : Rat
  starters_total : Nat
  starters_played : Nat
  deriving Repr, DecidableEq

/-- Python dict lookup on an association list where later bindings
overwrite earlier ones (dict-comprehension / re-keying semantics):
the LAST binding of a key wins. -/
def pyDictLookup {α : Type} : List (String × α) → String → Option α
  | [], _ => none
  | (k, v) :: rest, key =>
    match pyDictLookup rest key with
    | some v' => some v'
    | none => if k = key then some v else none

/-- Python truthiness of an optional string: `if s:` holds for a
non-`None`, non-empty string. -/
def strTruthy : Option String → Bool
  | none => false
  | some s => s != ""

/-- Python `or` on numeric values: the left operand if non-zero
(truthy), else the right operand. -/
def pyOr (a b : Rat) : Rat := if a = 0 then b else a

/-- `stats.get(field, 0)`: an absent field reads as 0. -/
def statGet (v : Option Rat) : Rat := v.getD 0

/-- `proj_data.get('stats', {})`. -/
def entryStats (e : ProjectionEntry) : Stats := e.stats.getD Stats.empty

/-- Lines 243-246: `stats.get('pts_ppr', 0) or stats.get('fantasy_points_ppr', 0)
or stats.get('projected_points', 0) or stats.get('pts_std', 0)`. -/
def playerProj (s : Stats) : Rat :=
  pyOr (statGet s.pts_ppr)
    (pyOr (statGet s.fantasy_points_ppr)
      (pyOr (statGet s.projected_points) (statGet s.pts_std)))

/-- Lines 95-99: re-key the provider's list on `player_id`, skipping
entries whose `player_id` is falsy (missing or empty string). -/
def buildProjDict (data : List ProjectionEntry) : List (String × ProjectionEntry) :=
  data.filterMap fun e =>
    match e.player_id with
    | some pid => if pid = "" then none else some (pid, e)
    | none => none

/-- Outcome of the HTTP request made by `get_weekly_projections`:
either the transport raises, or a response arrives with a status code
and a body that parses to a projections list (`none` models a body on
which `response.json()` raises). -/
inductive HttpOutcome where
  | transportError : HttpOutcome
  | response (status : Nat) (body : Option (List ProjectionEntry)) : HttpOutcome
  deriving Repr, DecidableEq

/-- Lines 75-125: `get_weekly_projections`. Inside `try`: on status 200
the body is parsed (a parse failure raises and is caught, yielding `{}`)
and re-keyed by `player_id`; any other status falls through to
`return {}`; a transport error is caught, yielding `{}`. -/
def get_weekly_projections (r : HttpOutcome) : List (String × ProjectionEntry) :=
  match r with
  | .transportError => []
  | .response status body =>
    if status = 200 then
      match body with
      | none => []
      | some data => buildProjDict data
    else []

/-- Line 212: `user_lookup = {user['user_id']: user for user in users}`,
then `.get(owner_id, {})`. -/
def lookupUser (users : List User) (uid : String) : Option User :=
  pyDictLookup (users.map fun u => (u.user_id, u)) uid

/-- Lines 217-219: resolve the team display name, falling back to
`"Team {roster_id}"` when the owner or their display name is missing. -/
def teamNameOf (users : List User) (r : Roster) : String :=
  match r.owner_id with
  | none => "Team " ++ toString r.roster_id
  | some uid =>
    match lookupUser users uid with
    | none => "Team " ++ toString r.roster_id
    | some u => u.display_name.getD ("Team " ++ toString r.roster_id)

/-- Line 222: `next((m for m in matchups if m['roster_id'] == roster['roster_id']), {})`:
the first matchup whose roster id matches. -/
def findMatchup (matchups : List Matchup) (rid : Nat) : Option Matchup :=
  matchups.find? fun m => m.roster_id == rid

/-- Line 225: `matchup_data.get('points', 0)` (0 when no matchup found). -/
def matchupPoints : Option Matchup → Rat
  | none => 0
  | some m => m.points.getD 0

/-- Line 226: `matchup_data.get('starters_points', [])`. -/
def matchupStartersPts : Option Matchup → List Rat
  | none => []
  | some m => m.starters_points.getD []

/-- Line 255: `matchup_data.get('players_points', {})`. -/
def matchupPlayersPts : Option Matchup → List (String × Rat)
  | none => []
  | some m => m.players_points

/-- Line 227: `total_current = sum(starters_points) if starters_points else current_points`. -/
def totalCurrent (mo : Option Matchup) : Rat :=
  if matchupStartersPts mo = [] then matchupPoints mo else (matchupStartersPts mo).sum

/-- Lines 237-248: the projected-point contribution of one starter slot:
0 for a falsy slot or a player id absent from the projections dict,
otherwise the alias-chain value read from the entry's stats map. -/
def starterProjValue (projs : List (String × ProjectionEntry)) : Option String → Rat
  | none => 0
  | some pid =>
    if pid = "" then 0
    else
      match pyDictLookup projs pid with
      | none => 0
      | some e => playerProj (entryStats e)

/-- Lines 234-248: `weekly_projected`, accumulated over the starters only
when the projections dict is truthy (non-empty). -/
def weeklyProjected (projs : List (String × ProjectionEntry))
    (starters : List (Option String)) : Rat :=
  if projs = [] then 0 else (starters.map (starterProjValue projs)).sum

/-- `players_points.get(player_id, 0)`. -/
def playerPts (pp : List (String × Rat)) (pid : String) : Rat :=
  (pyDictLookup pp pid).getD 0

/-- Lines 257-262: count the truthy starter slots whose scored points in
the matchup's `players_points` map are strictly positive. -/
def startersPlayed (mo : Option Matchup) (starters : List (Option String)) : Nat :=
  (starters.filter fun s =>
    match s with
    | none => false
    | some pid => pid != "" && decide (0 < playerPts (matchupPlayersPts mo) pid)).length

/-- Line 269: `len([s for s in starters if s])`. -/
def startersTotal (starters : List (Option String)) : Nat :=
  (starters.filter strTruthy).length

/-- Lines 216-271: the per-roster body of the join loop, producing one
`Team` summary. -/
def processRoster (users : List User) (matchups : List Matchup)
    (projs : List (String × ProjectionEntry)) (r : Roster) : Team :=
  let mo := findMatchup matchups r.roster_id
  let tc := totalCurrent mo
  let wp := weeklyProjected projs r.starters
  { team_name := teamNameOf users r
    roster_id := r.roster_id
    current_points := tc
    projected_points := if 0 < wp then wp else tc
    starters_total := startersTotal r.starters
    starters_played := startersPlayed mo r.starters }

/-- Lines 215-271: `teams_data`, one summary per roster in input order. -/
def teamsData (users : List User) (matchups : List Matchup)
    (projs : List (String × ProjectionEntry)) (rosters : List Roster) : List Team :=
  rosters.map (processRoster users matchups projs)

/-- Line 274: `active_teams = [team for team in teams_data if team['projected_points'] > 0]`. -/
def activeTeams (teams : List Team) : List Team :=
  teams.filter fun t => decide (0 < t.projected_points)

/-- The sort key order of line 277: ascending by projected points. -/
def teamLE (a b : Team) : Prop := a.projected_points ≤ b.projected_points

instance : DecidableRel teamLE := fun a b =>
  inferInstanceAs (Decidable (a.projected_points ≤ b.projected_points))

instance : IsTotal Team teamLE :=
  ⟨fun a b => le_total a.projected_points b.projected_points⟩

instance : IsTrans Team teamLE :=
  ⟨fun _ _ _ h h' => le_trans h h'⟩

/-- Line 277: `active_teams.sort(key=lambda x: x['projected_points'])`.
Python's `list.sort` is a stable ascending sort; a stable sort's output
is uniquely determined by the key order, so insertion sort is an exact
model. -/
def rankTeams (teams : List Team) : List Team :=
  List.insertionSort teamLE (activeTeams teams)

/-- Lines 215-277: the full join-filter-sort pipeline from raw inputs to
the ranked list that is exported. -/
def rankedTeams (users : List User) (matchups : List Matchup)
    (projs : List (String × ProjectionEntry)) (rosters : List Roster) : List Team :=
  rankTeams (teamsData users matchups projs rosters)

/-! ### Concrete inputs used by witnesses and counterexamples -/

/-- A projections dict holding one player with a positive `pts_ppr`. -/
def wProjs : List (String × ProjectionEntry) :=
  buildProjDict [⟨some "p1", some ⟨some 5, none, none, none⟩⟩]

/-- A roster starting that one player. -/
def wRoster : Roster := ⟨1, none, [some "p1"]⟩

/-- A matchup with a present, non-empty `starters_points` list. -/
def w2m1 : Matchup := ⟨1, some 9, some [3, 4], []⟩

/-- A matchup with an absent `starters_points` list. -/
def w2m2 : Matchup := ⟨1, some 9, none, []⟩

/-! ### Theorems -/

/-- C1: for every team, projected points equals the per-starter weekly
projection sum when that sum is strictly positive; otherwise (and in
particular when the sum is 0) it equals the team's current points. -/
theorem projected_points_fallback (users : List User) (matchups : List Matchup)
    (projs : List (String × ProjectionEntry)) (r : Roster) :
    (0 < weeklyProjected projs r.starters →
      (processRoster users matchups projs r).projected_points =
        weeklyProjected projs r.starters) ∧
    (¬ 0 < weeklyProjected projs r.starters →
      (processRoster users matchups projs r).projected_points =
        (processRoster users matchups projs r).current_points) ∧
    (weeklyProjected projs r.starters = 0 →
      (processRoster users matchups projs r).projected_points =
        (processRoster users matchups projs r).current_points) := by
  refine ⟨fun h => ?_, fun h => ?_, fun h => ?_⟩
  · simp only [processRoster]
    rw [if_pos h]
  · simp only [processRoster]
    rw [if_neg h]
  · simp only [processRoster]
    rw [if_neg (by rw [h]; exact lt_irrefl 0)]

/-- Witness for C1: a starter with projection 5 yields the projection sum;
with an empty projections dict the fallback to current points fires. -/
theorem projected_points_fallback_witness :
    (processRoster [] [] wProjs wRoster).projected_points =
      weeklyProjected wProjs wRoster.starters ∧
    (processRoster [] [] [] wRoster).projected_points =
      (processRoster [] [] [] wRoster).current_points :=
  ⟨(projected_points_fallback [] [] wProjs wRoster).1
      (by norm_num +decide [wProjs, wRoster, weeklyProjected, starterProjValue, buildProjDict,
        pyDictLookup, entryStats, playerProj, pyOr, statGet, Stats.empty]),
   (projected_points_fallback [] [] [] wRoster).2.2 rfl⟩

/-- C2: current points is the sum of the matchup's `starters_points` when
present and non-empty, else the matchup's `points` field, else 0 when no
matchup matches the roster id. -/
theorem current_points_spec (users : List User) (matchups : List Matchup)
    (projs : List (String × ProjectionEntry)) (r : Roster) :
    (∀ m, findMatchup matchups r.roster_id = some m → m.starters_points.getD [] ≠ [] →
      (processRoster users matchups projs r).current_points =
        (m.starters_points.getD []).sum) ∧
    (∀ m, findMatchup matchups r.roster_id = some m → m.starters_points.getD [] = [] →
      (processRoster users matchups projs r).current_points = m.points.getD 0) ∧
    (findMatchup matchups r.roster_id = none →
      (processRoster users matchups projs r).current_points = 0) := by
  refine ⟨fun m hm hsp => ?_, fun m hm hsp => ?_, fun hnone => ?_⟩
  · simp [processRoster, totalCurrent, matchupStartersPts, matchupPoints, hm, hsp]
  · simp [processRoster, totalCurrent, matchupStartersPts, matchupPoints, hm, hsp]
  · simp [processRoster, totalCurrent, matchupStartersPts, matchupPoints, hnone]

/-- Witness for C2: the three branches at concrete matchups. -/
theorem current_points_spec_witness :
    (processRoster [] [w2m1] [] wRoster).current_points =
      (w2m1.starters_points.getD []).sum ∧
    (processRoster [] [w2m2] [] wRoster).current_points = w2m2.points.getD 0 ∧
    (processRoster [] [] [] wRoster).current_points = 0 :=
  ⟨(current_points_spec [] [w2m1] [] wRoster).1 w2m1 rfl (by decide),
   (current_points_spec [] [w2m2] [] wRoster).2.1 w2m2 rfl rfl,
   (current_points_spec [] [] [] wRoster).2.2 rfl⟩

/-- A matchup giving current points 7 and no projection data. -/
def w3m : Matchup := ⟨1, some 7, none, []⟩

/-- A roster with no starters, used with `w3m`. -/
def w3r : Roster := ⟨1, none, []⟩

/-- C3: no team whose final projected points equal 0 appears in the
ranked list, for any combination of inputs. -/
theorem ranked_excludes_zero (users : List User) (matchups : List Matchup)
    (projs : List (String × ProjectionEntry)) (rosters : List Roster) (t : Team)
    (ht : t ∈ rankedTeams users matchups projs rosters) : t.projected_points ≠ 0 := by
  have h2 : t ∈ List.filter (fun a => decide (0 < a.projected_points))
      (teamsData users matchups projs rosters) :=
    (List.perm_insertionSort teamLE _).subset ht
  exact ne_of_gt (of_decide_eq_true (List.mem_filter.mp h2).2)

/-- Witness for C3: a one-team league whose team lands in the output. -/
theorem ranked_excludes_zero_witness :
    (processRoster [] [w3m] [] w3r).projected_points ≠ 0 :=
  ranked_excludes_zero [] [w3m] [] [w3r] (processRoster [] [w3m] [] w3r)
    (by norm_num +decide [rankedTeams, rankTeams, teamsData, activeTeams, processRoster,
      w3m, w3r, findMatchup, totalCurrent, matchupStartersPts, matchupPoints,
      weeklyProjected, teamNameOf, startersTotal, startersPlayed, matchupPlayersPts,
      List.insertionSort, List.find?_cons_of_pos])

/-- C9: every team in the ranked list has strictly positive projected
points, so negative values are filtered out along with zero. -/
theorem ranked_all_positive (users : List User) (matchups : List Matchup)
    (projs : List (String × ProjectionEntry)) (rosters : List Roster) (t : Team)
    (ht : t ∈ rankedTeams users matchups projs rosters) : 0 < t.projected_points := by
  have h2 : t ∈ List.filter (fun a => decide (0 < a.projected_points))
      (teamsData users matchups projs rosters) :=
    (List.perm_insertionSort teamLE _).subset ht
  exact of_decide_eq_true (List.mem_filter.mp h2).2

/-- Witness for C9: the same one-team league, via the positivity theorem. -/
theorem ranked_all_positive_witness :
    0 < (processRoster [] [w3m] [] w3r).projected_points :=
  ranked_all_positive [] [w3m] [] [w3r] (processRoster [] [w3m] [] w3r)
    (by norm_num +decide [rankedTeams, rankTeams, teamsData, activeTeams, processRoster,
      w3m, w3r, findMatchup, totalCurrent, matchupStartersPts, matchupPoints,
      weeklyProjected, teamNameOf, startersTotal, startersPlayed, matchupPlayersPts,
      List.insertionSort, List.find?_cons_of_pos])

/-- C5: the ranked list is sorted non-decreasingly by projected points:
each consecutive pair is ordered. -/
theorem ranked_sorted (users : List User) (matchups : List Matchup)
    (projs : List (String × ProjectionEntry)) (rosters : List Roster) :
    List.Chain' (fun a b : Team => a.projected_points ≤ b.projected_points)
      (rankedTeams users matchups projs rosters) :=
  List.Pairwise.chain' (List.sorted_insertionSort teamLE _)

/-- Inserting a team into a list commutes with filtering on an exact
projected-points value: the inserted team lands in front of every team
with the same key, because `orderedInsert` only walks past strictly
smaller keys. -/
lemma filter_key_orderedInsert (k : Rat) (t : Team) (l : List Team) :
    (List.orderedInsert teamLE t l).filter (fun a => decide (a.projected_points = k)) =
      if t.projected_points = k then
        t :: l.filter (fun a => decide (a.projected_points = k))
      else l.filter (fun a => decide (a.projected_points = k)) := by
  induction l with
  | nil =>
    by_cases h : t.projected_points = k <;> simp [List.orderedInsert, h]
  | cons hd tl ih =>
    by_cases hle : teamLE t hd
    · rw [List.orderedInsert_of_le teamLE tl hle]
      by_cases h : t.projected_points = k <;>
        by_cases h2 : hd.projected_points = k <;> simp [h, h2]
    · have hstep : List.orderedInsert teamLE t (hd :: tl) =
          hd :: List.orderedInsert teamLE t tl := by
        simp only [List.orderedInsert]
        rw [if_neg hle]
      have hlt : hd.projected_points < t.projected_points := not_le.mp hle
      rw [hstep]
      by_cases h : t.projected_points = k
      · have h2 : hd.projected_points ≠ k := by
          rw [← h]
          exact ne_of_lt hlt
        simp [h, h2, ih]
      · by_cases h2 : hd.projected_points = k <;> simp [h, h2, ih]

/-- Insertion sort by projected points commutes with filtering on an
exact projected-points value: equal-key elements keep their input order. -/
lemma filter_key_insertionSort (k : Rat) (l : List Team) :
    (List.insertionSort teamLE l).filter (fun a => decide (a.projected_points = k)) =
      l.filter (fun a => decide (a.projected_points = k)) := by
  induction l with
  | nil => rfl
  | cons t tl ih =>
    simp only [List.insertionSort]
    rw [filter_key_orderedInsert, ih]
    by_cases h : t.projected_points = k <;> simp [h]

/-- C10: the sort is stable. For each projected-points value `k`, the
teams of the ranked list carrying `k` appear in exactly the order in
which the filter pass (which preserves the roster input order of
`teamsData`) produced them. -/
theorem ranked_sort_stable (users : List User) (matchups : List Matchup)
    (projs : List (String × ProjectionEntry)) (rosters : List Roster) (k : Rat) :
    (rankedTeams users matchups projs rosters).filter
        (fun a => decide (a.projected_points = k)) =
      (activeTeams (teamsData users matchups projs rosters)).filter
        (fun a => decide (a.projected_points = k)) :=
  filter_key_insertionSort k _

/-- C6: for a starter whose player id is found in the projections dict,
the projected value is the first non-zero (Python-truthy) entry of the
stats map in the fixed order `pts_ppr`, `fantasy_points_ppr`,
`projected_points`, `pts_std` (an absent field reads as 0); when all
four are zero or absent the starter contributes 0. -/
theorem starter_projection_priority (projs : List (String × ProjectionEntry))
    (pid : String) (e : ProjectionEntry) (hpid : pid ≠ "")
    (hfind : pyDictLookup projs pid = some e) :
    (statGet (entryStats e).pts_ppr ≠ 0 →
      starterProjValue projs (some pid) = statGet (entryStats e).pts_ppr) ∧
    (statGet (entryStats e).pts_ppr = 0 → statGet (entryStats e).fantasy_points_ppr ≠ 0 →
      starterProjValue projs (some pid) = statGet (entryStats e).fantasy_points_ppr) ∧
    (statGet (entryStats e).pts_ppr = 0 → statGet (entryStats e).fantasy_points_ppr = 0 →
      statGet (entryStats e).projected_points ≠ 0 →
      starterProjValue projs (some pid) = statGet (entryStats e).projected_points) ∧
    (statGet (entryStats e).pts_ppr = 0 → statGet (entryStats e).fantasy_points_ppr = 0 →
      statGet (entryStats e).projected_points = 0 → statGet (entryStats e).pts_std ≠ 0 →
      starterProjValue projs (some pid) = statGet (entryStats e).pts_std) ∧
    (statGet (entryStats e).pts_ppr = 0 → statGet (entryStats e).fantasy_points_ppr = 0 →
      statGet (entryStats e).projected_points = 0 → statGet (entryStats e).pts_std = 0 →
      starterProjValue projs (some pid) = 0) := by
  have hv : starterProjValue projs (some pid) = playerProj (entryStats e) := by
    simp [starterProjValue, hpid, hfind]
  refine ⟨fun h1 => ?_, fun h1 h2 => ?_, fun h1 h2 h3 => ?_,
    fun h1 h2 h3 h4 => ?_, fun h1 h2 h3 h4 => ?_⟩
  · rw [hv, playerProj, pyOr, if_neg h1]
  · rw [hv, playerProj, pyOr, if_pos h1, pyOr, if_neg h2]
  · rw [hv, playerProj, pyOr, if_pos h1, pyOr, if_pos h2, pyOr, if_neg h3]
  · rw [hv, playerProj, pyOr, if_pos h1, pyOr, if_pos h2, pyOr, if_pos h3]
  · rw [hv, playerProj, pyOr, if_pos h1, pyOr, if_pos h2, pyOr, if_pos h3, h4]

/-- A projection entry whose stats map skips the first two aliases and
carries a non-zero generic projected-points field. -/
def w6e : ProjectionEntry := ⟨some "q1", some ⟨none, some 0, some 6, some 2⟩⟩

/-- Witness for C6: with `pts_ppr` absent and `fantasy_points_ppr` zero,
the third alias in the priority order is returned. -/
theorem starter_projection_priority_witness :
    starterProjValue (buildProjDict [w6e]) (some "q1") =
      statGet (entryStats w6e).projected_points :=
  (starter_projection_priority (buildProjDict [w6e]) "q1" w6e (by decide)
      rfl).2.2.1 rfl rfl (by norm_num [w6e, entryStats, statGet])

/-- A dict lookup succeeds exactly when some binding of the key is in
the association list. -/
lemma pyDictLookup_isSome {α : Type} (l : List (String × α)) (k : String) :
    (pyDictLookup l k).isSome ↔ ∃ v, (k, v) ∈ l := by
  induction l with
  | nil => simp [pyDictLookup]
  | cons p rest ih =>
    obtain ⟨k', v⟩ := p
    simp only [pyDictLookup]
    cases h : pyDictLookup rest k with
    | some v' =>
      rw [h] at ih
      simp only [Option.isSome_some, true_iff] at ih
      obtain ⟨w, hw⟩ := ih
      simp only [Option.isSome_some, true_iff]
      exact ⟨w, List.mem_cons_of_mem _ hw⟩
    | none =>
      rw [h] at ih
      simp only [Option.isSome_none, Bool.false_eq_true, false_iff, not_exists] at ih
      by_cases hk : k' = k
      · subst hk
        simp
      · simp only [if_neg hk, Option.isSome_none, Bool.false_eq_true, false_iff, not_exists]
        intro w hw
        rcases List.mem_cons.mp hw with h1 | h2
        · exact hk (congrArg Prod.fst h1).symm
        · exact ih w h2

/-- Membership in the re-keyed projections dict characterised:
each binding comes from an input entry whose `player_id` equals the key
and is non-empty. -/
lemma mem_buildProjDict {data : List ProjectionEntry} {p : String × ProjectionEntry} :
    p ∈ buildProjDict data ↔ p.2 ∈ data ∧ p.2.player_id = some p.1 ∧ p.1 ≠ "" := by
  obtain ⟨k, e⟩ := p
  simp only [buildProjDict, List.mem_filterMap]
  constructor
  · rintro ⟨e0, he0, hf⟩
    cases hpid : e0.player_id with
    | none => simp [hpid] at hf
    | some pid =>
      simp only [hpid] at hf
      by_cases hne : pid = ""
      · simp [hne] at hf
      · simp only [if_neg hne, Option.some.injEq, Prod.mk.injEq] at hf
        obtain ⟨hk, he⟩ := hf
        subst hk
        subst he
        exact ⟨he0, hpid, hne⟩
  · rintro ⟨he, hid, hne⟩
    refine ⟨e, he, ?_⟩
    simp [hid, hne]

/-- A key resolves in the re-keyed dict exactly when it is non-empty and
some input entry carries it as `player_id`. -/
lemma buildProjDict_key_isSome (data : List ProjectionEntry) (pid : String) :
    (pyDictLookup (buildProjDict data) pid).isSome ↔
      pid ≠ "" ∧ ∃ e ∈ data, e.player_id = some pid := by
  rw [pyDictLookup_isSome]
  constructor
  · rintro ⟨v, hv⟩
    have h := mem_buildProjDict.mp hv
    exact ⟨h.2.2, v, h.1, h.2.1⟩
  · rintro ⟨hne, e, he, hid⟩
    exact ⟨e, mem_buildProjDict.mpr ⟨he, hid, hne⟩⟩

/-- C7 (amended): the projections accessor absorbs every failure into an
empty mapping (transport error, non-200 status, malformed body), and on
success re-keys the provider's list on `player_id`, discarding entries
whose `player_id` is missing or empty. -/
theorem weekly_projections_best_effort :
    (∀ status body, status ≠ 200 → get_weekly_projections (.response status body) = []) ∧
    get_weekly_projections .transportError = [] ∧
    (∀ status, get_weekly_projections (.response status none) = []) ∧
    (∀ data pid,
      (pyDictLookup (get_weekly_projections (.response 200 (some data))) pid).isSome ↔
        pid ≠ "" ∧ ∃ e ∈ data, e.player_id = some pid) ∧
    (∀ data p, p ∈ get_weekly_projections (.response 200 (some data)) →
      p.2 ∈ data ∧ p.2.player_id = some p.1) := by
  refine ⟨fun status body h => ?_, rfl, fun status => ?_, fun data pid => ?_,
    fun data p hp => ?_⟩
  · simp [get_weekly_projections, h]
  · simp only [get_weekly_projections]
    split
    · rfl
    · rfl
  · simp only [get_weekly_projections, if_pos rfl]
    exact buildProjDict_key_isSome data pid
  · simp only [get_weekly_projections, if_pos rfl] at hp
    have h := mem_buildProjDict.mp hp
    exact ⟨h.1, h.2.1⟩

/-- A projection entry carrying the empty string as its `player_id`. -/
def emptyIdEntry : ProjectionEntry := ⟨some "", none⟩

/-- Counterexample to C7 as stated: an entry that does NOT lack a
`player_id` (it is present, the empty string) is nonetheless discarded
from the successful re-keying, so the output is not the provider's list
re-keyed with only id-lacking entries dropped. -/
theorem weekly_projections_empty_id_dropped :
    emptyIdEntry.player_id.isSome = true ∧
    get_weekly_projections (.response 200 (some [emptyIdEntry])) = [] :=
  ⟨rfl, rfl⟩

/-- Witness for C7 (amended): a 404 response and a malformed 200 body
both give an empty dict; a well-formed entry is found under its id. -/
theorem weekly_projections_best_effort_witness :
    get_weekly_projections (.response 404 (some [⟨some "p1", none⟩])) = [] ∧
    get_weekly_projections (.response 200 none) = [] ∧
    (pyDictLookup (get_weekly_projections (.response 200 (some [⟨some "p1", none⟩])))
      "p1").isSome = true :=
  ⟨weekly_projections_best_effort.1 404 (some [⟨some "p1", none⟩]) (by decide),
   weekly_projections_best_effort.2.2.1 200,
   (weekly_projections_best_effort.2.2.2.1 [⟨some "p1", none⟩] "p1").mpr
     ⟨by decide, ⟨some "p1", none⟩, List.mem_singleton.mpr rfl, rfl⟩⟩

/-- A matchup carrying a negative overall points value. -/
def negMatchup : Matchup := ⟨1, some (-5), none, []⟩

/-- A roster with no starters, matched by `negMatchup`. -/
def negRoster : Roster := ⟨1, none, []⟩

/-- Counterexample to C8 as stated: with no projection data and a
matchup whose points total is negative, the fallback makes the team's
projected points negative. -/
theorem projected_points_negative_possible :
    (processRoster [] [negMatchup] [] negRoster).projected_points < 0 := by
  norm_num +decide [processRoster, negMatchup, negRoster, findMatchup, totalCurrent,
    matchupStartersPts, matchupPoints, weeklyProjected, List.find?_cons_of_pos]

/-- C8 (amended): projected points is non-negative whenever the upstream
matchup values (the `points` field and every `starters_points` entry)
are non-negative; unguarded negative upstream values can leak through
the fallback. -/
theorem projected_points_nonneg (users : List User) (matchups : List Matchup)
    (projs : List (String × ProjectionEntry)) (r : Roster)
    (h : ∀ m ∈ matchups, 0 ≤ m.points.getD 0 ∧ ∀ x ∈ m.starters_points.getD [], 0 ≤ x) :
    0 ≤ (processRoster users matchups projs r).projected_points := by
  have hp : (processRoster users matchups projs r).projected_points =
      if 0 < weeklyProjected projs r.starters then weeklyProjected projs r.starters
      else totalCurrent (findMatchup matchups r.roster_id) := rfl
  rw [hp]
  split
  · exact le_of_lt (by assumption)
  · cases hm : findMatchup matchups r.roster_id with
    | none => simp [totalCurrent, matchupStartersPts, matchupPoints]
    | some m =>
      have hmem : m ∈ matchups := List.mem_of_find?_eq_some hm
      have hm2 := h m hmem
      rw [totalCurrent]
      split
      · simpa [matchupPoints] using hm2.1
      · refine List.sum_nonneg ?_
        intro x hx
        exact hm2.2 x (by simpa [matchupStartersPts] using hx)

/-- Witness for C8 (amended): a non-negative concrete input. -/
theorem projected_points_nonneg_witness :
    0 ≤ (processRoster [] [w3m] [] w3r).projected_points :=
  projected_points_nonneg [] [w3m] [] w3r
    (by intro m hm
        rcases List.mem_singleton.mp hm
        exact ⟨by norm_num [w3m], by norm_num [w3m]⟩)

/-! ### The three-team scenario of the spec -/

/-- Team A's roster: one starter with a known zero projection. -/
def scRosterA : Roster := ⟨1, none, [some "a1"]⟩

/-- Team B's roster: one starter with projection 85.4. -/
def scRosterB : Roster := ⟨2, none, [some "b1"]⟩

/-- Team C's roster: one starter with no projection record. -/
def scRosterC : Roster := ⟨3, none, [some "c1"]⟩

/-- Matchups giving current points 40, 10.2 and 22.0 to teams A, B, C. -/
def scMatchups : List Matchup :=
  [⟨1, some 40, none, []⟩, ⟨2, some (10.2 : Rat), none, []⟩, ⟨3, some 22, none, []⟩]

/-- Projection data: player a1 projects 0, player b1 projects 85.4,
player c1 has no record. -/
def scProjs : List (String × ProjectionEntry) :=
  buildProjDict [⟨some "a1", some ⟨some 0, none, none, none⟩⟩,
                 ⟨some "b1", some ⟨some (85.4 : Rat), none, none, none⟩⟩]

/-- Counterexample to C4 as stated: team A (roster id 1) is NOT excluded
from the ranked output — the zero projection sum triggers the fallback
to its current points 40, which passes the strictly-positive filter. -/
theorem scenario_team_a_included :
    (rankedTeams [] scMatchups scProjs [scRosterA, scRosterB, scRosterC]).map
      (fun t => t.roster_id) = [3, 1, 2] := by
  norm_num +decide [rankedTeams, rankTeams, teamsData, activeTeams, processRoster,
    scRosterA, scRosterB, scRosterC, scMatchups, scProjs, buildProjDict, findMatchup,
    totalCurrent, matchupStartersPts, matchupPoints, weeklyProjected, starterProjValue,
    pyDictLookup, entryStats, playerProj, pyOr, statGet, teamNameOf, startersTotal,
    startersPlayed, strTruthy, matchupPlayersPts, playerPts, List.insertionSort,
    List.orderedInsert, teamLE, List.find?_cons_of_pos, List.find?_cons_of_neg,
    Stats.empty]

/-- C4 (amended): in the three-team scenario, team A falls back to
projected points 40 and appears in the output; team B appears with 85.4;
team C falls back to 22.0; the ranked order ascending by projected value
is C (22.0), then A (40), then B (85.4). -/
theorem scenario_ranking :
    (rankedTeams [] scMatchups scProjs [scRosterA, scRosterB, scRosterC]).map
      (fun t => (t.roster_id, t.projected_points)) =
      [(3, 22), (1, 40), (2, (85.4 : Rat))] := by
  norm_num +decide [rankedTeams, rankTeams, teamsData, activeTeams, processRoster,
    scRosterA, scRosterB, scRosterC, scMatchups, scProjs, buildProjDict, findMatchup,
    totalCurrent, matchupStartersPts, matchupPoints, weeklyProjected, starterProjValue,
    pyDictLookup, entryStats, playerProj, pyOr, statGet, teamNameOf, startersTotal,
    startersPlayed, strTruthy, matchupPlayersPts, playerPts, List.insertionSort,
    List.orderedInsert, teamLE, List.find?_cons_of_pos, List.find?_cons_of_neg,
    Stats.empty]

end SleeperChopped
